import Mathlib

/-! Formal model of the least-recently-used (LRU) queue broker from
`src/zguide/examples/C/lruqueue2.c` (poll-driven event loop) and
`src/zguide/examples/C/lruqueue3.c` (reactor-driven event loop), together
with proofs about the routing, queueing and subscription behaviour of the
two loops.

Frames are modelled as byte lists and a multipart message as a list of
frames, outermost routing frame first.  The czmq container and message
primitives the two brokers call (`zmsg_unwrap`, `zmsg_wrap`, `zmsg_first`,
`zlist_append`, `zlist_pop`, `zlist_size`) are library code that is not
part of this repository's sources; they are modelled from the spec's
description of the Message Envelope and the Worker Ready-Queue. -/

namespace LRUQueue

/-- An opaque message frame: a sequence of bytes, modelled as naturals. -/
abbrev Frame := List Nat

/-- A multipart message: an ordered list of frames, outermost frame first. -/
abbrev Msg := List Frame

/-- Failure conditions of the broker protocol, named after the spec's error
taxonomy.  `malformedEnvelope` is an unwrap on a message with no leading
frame, `emptyBody` a first-frame inspection of a message with no frames,
`queueEmpty` a pop from an empty Ready-Queue. -/
inductive BrokerError where
  | malformedEnvelope
  | emptyBody
  | queueEmpty
deriving DecidableEq

/-- An externally observable send performed by the broker: a multipart
message written to the frontend or to the backend channel. -/
inductive Output where
  | sendFrontend (m : Msg)
  | sendBackend (m : Msg)
deriving DecidableEq

/-- An arrival offered to the broker by the transport: a message becoming
readable on the backend or on the frontend channel. -/
inductive Event where
  | backend (m : Msg)
  | frontend (m : Msg)
deriving DecidableEq

/-- Modelled from the spec: `unwrap(msg) -> (address, remainder)` pops the
outermost address frame and fails with `MalformedEnvelope` when the message
has no leading frame.  This stands for czmq's `zmsg_unwrap`, which both
broker variants call and which is absent from src/. -/
def zmsg_unwrap : Msg → Option (Frame × Msg)
  | [] => none
  | a :: rest => some (a, rest)

/-- Modelled from the spec: `wrap(msg, address) -> msg'` pushes `address`
as the new outermost frame and always succeeds.  This stands for czmq's
`zmsg_wrap`, absent from src/. -/
def zmsg_wrap (msg : Msg) (address : Frame) : Msg := address :: msg

/-- Modelled from the spec: `firstBodyFrame(msg)` returns the first
remaining frame and fails with `EmptyBody` when there is none.  This
stands for czmq's `zmsg_first`, absent from src/. -/
def zmsg_first (msg : Msg) : Option Frame := msg.head?

/-- Modelled from the spec: Ready-Queue `append(address)` adds an address
at the back.  This stands for czmq's `zlist_append`, absent from src/. -/
def zlist_append (l : List Frame) (x : Frame) : List Frame := l ++ [x]

/-- Modelled from the spec: Ready-Queue `popFront()` removes the front
address and fails with `QueueEmpty` on an empty queue.  This stands for
czmq's `zlist_pop`, absent from src/. -/
def zlist_pop : List Frame → Option (Frame × List Frame)
  | [] => none
  | x :: rest => some (x, rest)

/-- Modelled from the spec: Ready-Queue `size()`.  This stands for czmq's
`zlist_size`, absent from src/. -/
def zlist_size (l : List Frame) : Nat := l.length

/-- The readiness sentinel `LRU_READY` from lruqueue2.c line 13 and
lruqueue3.c line 13: the single byte 0x01. -/
def LRU_READY : Frame := [1]

/-- The sentinel test both brokers perform on the first remaining frame,
lruqueue2.c line 110 and lruqueue3.c line 104: a one-byte memcmp against
`LRU_READY`, so only the FIRST byte of the frame is compared against 0x01.
A zero-length frame would make the C comparison read past the frame's
data; the model classifies such a frame as a mismatch. -/
def is_lru_ready (frame : Frame) : Bool := frame.head? == some 1

/-- Backend branch of the poll loop, lruqueue2.c lines 100 to 113: unwrap
the worker address from the received message, append it to the worker
queue, then destroy the message when its first remaining frame passes the
sentinel test and forward it to the frontend otherwise.  A message with no
leading frame is reported as `malformedEnvelope`: the C code performs no
such check, it would append the null unwrap result to the queue and then
fail the assertion inside `zframe_data`, so there is no continue path.  A
remainder with no frame at all is reported as `emptyBody` for the same
assertion. -/
def lru2_handleBackend (workers : List Frame) (msg : Msg) :
    Except BrokerError (List Frame × List Output) :=
  match zmsg_unwrap msg with
  | none => .error .malformedEnvelope
  | some (address, rest) =>
    match zmsg_first rest with
    | none => .error .emptyBody
    | some frame =>
      if is_lru_ready frame then .ok (zlist_append workers address, [])
      else .ok (zlist_append workers address, [.sendFrontend rest])

/-- Frontend branch of the poll loop, lruqueue2.c lines 115 to 122: pop
the least-recently-used worker address, wrap the client request with it
and send the result to the backend.  The empty-queue case is the spec's
`QueueEmpty` invariant violation; czmq's `zlist_pop` would return null and
`zmsg_wrap` would then silently do nothing. -/
def lru2_handleFrontend (workers : List Frame) (msg : Msg) :
    Except BrokerError (List Frame × List Output) :=
  match zlist_pop workers with
  | none => .error .queueEmpty
  | some (w, rest) => .ok (rest, [.sendBackend (zmsg_wrap msg w)])

/-- Poll-set construction of lruqueue2.c line 95, where the poll count is
`zlist_size (workers)? 2: 1`: the frontend item (items[1]) belongs to the
poll set exactly when the worker queue is non-empty. -/
def lru2_pollsFrontend (workers : List Frame) : Bool := zlist_size workers != 0

/-- Backend poll-set membership in lruqueue2.c lines 90 to 95: the backend
item (items[0]) is polled in every iteration, whatever the queue state. -/
def lru2_pollsBackend (_workers : List Frame) : Bool := true

/-- One wake of the poll loop, serialised per arrival: a backend arrival
is always handled; a frontend arrival is handled only when the frontend is
in the poll set, and otherwise the message stays unread in the transport
and the broker state is unchanged.  A wake in which both channels are
readable is serialised as the backend arrival followed by the frontend
arrival, matching the handling order of lruqueue2.c lines 100 and 115. -/
def lru2_step (workers : List Frame) : Event → Except BrokerError (List Frame × List Output)
  | .backend m => lru2_handleBackend workers m
  | .frontend m =>
    if lru2_pollsFrontend workers then lru2_handleFrontend workers m
    else .ok (workers, [])

/-- The poll loop of lruqueue2.c main, run over a sequence of arrivals,
accumulating every message the broker sends on either channel. -/
def lru2_run (workers : List Frame) : List Event → Except BrokerError (List Frame × List Output)
  | [] => .ok (workers, [])
  | e :: evs =>
    match lru2_step workers e with
    | .error err => .error err
    | .ok (w2, out) =>
      match lru2_run w2 evs with
      | .error err => .error err
      | .ok (w3, out2) => .ok (w3, out ++ out2)

/-- The reactor broker state: the `lruqueue_t` structure of lruqueue3.c
lines 64 to 69 together with the zloop registration status of the frontend
reader, which lruqueue3.c keeps inside the reactor.  `frontendActive`
records whether `s_handle_frontend` is currently registered. -/
structure LruQueue where
  workers : List Frame
  frontendActive : Bool
deriving DecidableEq

/-- Frontend handler of the reactor broker, lruqueue3.c lines 73 to 86
`s_handle_frontend`: pop a worker address, wrap the client request with it,
send the result to the backend, then cancel the frontend reader when the
queue just went from one worker to none. -/
def s_handle_frontend (self : LruQueue) (msg : Msg) :
    Except BrokerError (LruQueue × List Output) :=
  match zlist_pop self.workers with
  | none => .error .queueEmpty
  | some (w, rest) =>
    .ok (⟨rest, if zlist_size rest == 0 then false else self.frontendActive⟩,
      [.sendBackend (zmsg_wrap msg w)])

/-- Backend handler of the reactor broker, lruqueue3.c lines 89 to 110
`s_handle_backend`: unwrap the worker address, append it to the queue,
register the frontend reader when the queue just went from none to one
worker, then destroy the message when the sentinel test passes and forward
it to the frontend otherwise.  The error cases mirror
`lru2_handleBackend`. -/
def s_handle_backend (self : LruQueue) (msg : Msg) :
    Except BrokerError (LruQueue × List Output) :=
  match zmsg_unwrap msg with
  | none => .error .malformedEnvelope
  | some (address, rest) =>
    match zmsg_first rest with
    | none => .error .emptyBody
    | some frame =>
      if is_lru_ready frame then
        .ok (⟨zlist_append self.workers address,
          if zlist_size (zlist_append self.workers address) == 1 then true
          else self.frontendActive⟩, [])
      else
        .ok (⟨zlist_append self.workers address,
          if zlist_size (zlist_append self.workers address) == 1 then true
          else self.frontendActive⟩, [.sendFrontend rest])

/-- One reactor dispatch per arrival: the backend reader is registered at
startup, lruqueue3.c line 133, and never cancelled, so backend arrivals
are always handled; frontend arrivals are handled only while the frontend
reader is registered, and are otherwise left unread with the state
unchanged. -/
def lru3_step (self : LruQueue) : Event → Except BrokerError (LruQueue × List Output)
  | .backend m => s_handle_backend self m
  | .frontend m =>
    if self.frontendActive then s_handle_frontend self m
    else .ok (self, [])

/-- The reactor loop of lruqueue3.c main, run over a sequence of arrivals,
accumulating every message the broker sends on either channel. -/
def lru3_run (self : LruQueue) : List Event → Except BrokerError (LruQueue × List Output)
  | [] => .ok (self, [])
  | e :: evs =>
    match lru3_step self e with
    | .error err => .error err
    | .ok (s2, out) =>
      match lru3_run s2 evs with
      | .error err => .error err
      | .ok (s3, out2) => .ok (s3, out ++ out2)

/-- A worker readiness announcement as it reaches the broker's backend
channel: the worker's routing address followed by the one-byte sentinel
body, as produced by lruqueue2.c lines 47 to 49. -/
def readyMsg (w : Frame) : Msg := [w, LRU_READY]

/-- Appending a worker address always leaves the queue non-empty, so the
frontend is polled afterwards. -/
lemma pollsFrontend_append (w : List Frame) (a : Frame) :
    lru2_pollsFrontend (zlist_append w a) = true := by
  cases w <;> rfl

/-- The reactor's register-on-one transition computes exactly the poll
broker's poll-set condition on the appended queue, provided the stored
registration bit agreed with the condition beforehand. -/
lemma activeAfterAppend (w : List Frame) (a : Frame) :
    (if zlist_size (zlist_append w a) == 1 then true else lru2_pollsFrontend w) =
      lru2_pollsFrontend (zlist_append w a) := by
  cases w with
  | nil => rfl
  | cons x xs =>
    rw [show lru2_pollsFrontend (x :: xs) = true from rfl, ite_self,
      pollsFrontend_append]

/-- Variant of `activeAfterAppend` in the disjunction normal form that
`simp` produces for the register-on-one conditional. -/
lemma activeAfterAppend_or (w : List Frame) (a : Frame) :
    (decide (zlist_size (zlist_append w a) = 1) || lru2_pollsFrontend w) =
      lru2_pollsFrontend (zlist_append w a) := by
  cases w with
  | nil => rfl
  | cons x xs =>
    rw [show lru2_pollsFrontend (x :: xs) = true from rfl, Bool.or_true,
      pollsFrontend_append]

/-- The reactor's cancel-on-zero transition computes exactly the poll
broker's poll-set condition on the shrunk queue, starting from a
registered frontend reader. -/
lemma activeAfterPop (rest : List Frame) :
    (if zlist_size rest == 0 then false else true) = lru2_pollsFrontend rest := by
  cases rest <;> rfl

/-- Unfolding equation for `lru2_run` on a non-empty arrival sequence. -/
lemma lru2_run_cons (w : List Frame) (e : Event) (evs : List Event) :
    lru2_run w (e :: evs) =
      match lru2_step w e with
      | Except.error err => Except.error err
      | Except.ok (w2, out) =>
        match lru2_run w2 evs with
        | Except.error err => Except.error err
        | Except.ok (w3, out2) => Except.ok (w3, out ++ out2) := rfl

/-- Unfolding equation for `lru3_run` on a non-empty arrival sequence. -/
lemma lru3_run_cons (self : LruQueue) (e : Event) (evs : List Event) :
    lru3_run self (e :: evs) =
      match lru3_step self e with
      | Except.error err => Except.error err
      | Except.ok (s2, out) =>
        match lru3_run s2 evs with
        | Except.error err => Except.error err
        | Except.ok (s3, out2) => Except.ok (s3, out ++ out2) := rfl

/-- Backend simulation: on any backend arrival the reactor handler and the
poll-loop backend branch compute the same queue and the same sends, and
the reactor's registration bit ends up equal to the poll condition. -/
lemma backend_sim (w : List Frame) (m : Msg) :
    s_handle_backend ⟨w, lru2_pollsFrontend w⟩ m =
      (lru2_handleBackend w m).map
        (fun p => (⟨p.1, lru2_pollsFrontend p.1⟩, p.2)) := by
  cases m with
  | nil => rfl
  | cons a rest =>
    cases rest with
    | nil => rfl
    | cons f rest2 =>
      show (if is_lru_ready f then _ else _) = ((if is_lru_ready f then _ else _ :
        Except BrokerError (List Frame × List Output)).map _)
      cases hf : is_lru_ready f with
      | true => simp [Except.map, activeAfterAppend_or]
      | false => simp [Except.map, activeAfterAppend_or]

/-- Frontend simulation: starting from agreeing states, the reactor
handler and the poll-loop frontend branch compute the same queue and the
same sends, and the registration bit again ends up equal to the poll
condition. -/
lemma frontend_sim (w : List Frame) (m : Msg) :
    s_handle_frontend ⟨w, lru2_pollsFrontend w⟩ m =
      (lru2_handleFrontend w m).map
        (fun p => (⟨p.1, lru2_pollsFrontend p.1⟩, p.2)) := by
  cases w with
  | nil => rfl
  | cons x xs =>
    simp only [s_handle_frontend, lru2_handleFrontend, zlist_pop, Except.map]
    rw [show lru2_pollsFrontend (x :: xs) = true from rfl, activeAfterPop]

/-- Step simulation: per arrival, the reactor broker tracks the poll
broker exactly, with the registration bit determined by the queue. -/
lemma step_sim (w : List Frame) (e : Event) :
    lru3_step ⟨w, lru2_pollsFrontend w⟩ e =
      (lru2_step w e).map
        (fun p => (⟨p.1, lru2_pollsFrontend p.1⟩, p.2)) := by
  cases e with
  | backend m => exact backend_sim w m
  | frontend m =>
    cases w with
    | nil => rfl
    | cons x xs =>
      show s_handle_frontend ⟨x :: xs, lru2_pollsFrontend (x :: xs)⟩ m =
        (lru2_handleFrontend (x :: xs) m).map
          (fun p => (⟨p.1, lru2_pollsFrontend p.1⟩, p.2))
      exact frontend_sim (x :: xs) m

/-- Run simulation: over any arrival sequence, the reactor broker and the
poll broker produce the same sends, the same final queue and the same
failure, with the reactor's registration bit determined by the queue. -/
lemma run_sim (evs : List Event) : ∀ w : List Frame,
    lru3_run ⟨w, lru2_pollsFrontend w⟩ evs =
      (lru2_run w evs).map
        (fun p => (⟨p.1, lru2_pollsFrontend p.1⟩, p.2)) := by
  induction evs with
  | nil => intro w; rfl
  | cons e evs ih =>
    intro w
    rw [lru3_run_cons, lru2_run_cons, step_sim w e]
    cases h : lru2_step w e with
    | error err => simp only [h, Except.map]
    | ok p =>
      obtain ⟨w2, out⟩ := p
      simp only [h, Except.map]
      rw [ih w2]
      cases h2 : lru2_run w2 evs with
      | error err => simp only [h2, Except.map]
      | ok q =>
        obtain ⟨w3, out2⟩ := q
        simp only [h2, Except.map]

/-- Unfolding equation for `lru2_run` on the empty arrival sequence. -/
lemma lru2_run_nil (w : List Frame) : lru2_run w [] = Except.ok (w, []) := rfl

/-- Predicate picking out the `queueEmpty` failure of a broker
computation. -/
def is_queue_empty_err {α : Type} : Except BrokerError α → Bool
  | Except.error BrokerError.queueEmpty => true
  | _ => false

/-- The backend branch of the poll loop can fail, but never with
`queueEmpty`: it only ever appends to the worker queue. -/
lemma backend_no_queueEmpty (w : List Frame) (m : Msg) :
    is_queue_empty_err (lru2_handleBackend w m) = false := by
  cases m with
  | nil => rfl
  | cons a rest =>
    cases rest with
    | nil => rfl
    | cons f rest2 =>
      cases hf : is_lru_ready f <;>
        simp [lru2_handleBackend, zmsg_unwrap, zmsg_first, hf, is_queue_empty_err]

/-- No single serialised wake of the poll loop can fail with `queueEmpty`:
the frontend branch runs only when the poll set contains the frontend,
which requires a non-empty worker queue. -/
lemma step_no_queueEmpty (w : List Frame) (e : Event) :
    is_queue_empty_err (lru2_step w e) = false := by
  cases e with
  | backend m => exact backend_no_queueEmpty w m
  | frontend m =>
    cases w with
    | nil => rfl
    | cons x xs => rfl

/-- The poll loop never fails with `queueEmpty` from any starting
queue. -/
lemma run_no_queueEmpty (evs : List Event) : ∀ w : List Frame,
    is_queue_empty_err (lru2_run w evs) = false := by
  induction evs with
  | nil => intro w; rfl
  | cons e evs ih =>
    intro w
    rw [lru2_run_cons]
    cases h : lru2_step w e with
    | error err =>
      have hs := step_no_queueEmpty w e
      rw [h] at hs
      exact hs
    | ok p =>
      obtain ⟨w2, out⟩ := p
      show is_queue_empty_err
          (match lru2_run w2 evs with
          | Except.error err => Except.error err
          | Except.ok (w3, out2) => Except.ok (w3, out ++ out2)) = false
      cases h2 : lru2_run w2 evs with
      | error err =>
        have hr := ih w2
        rw [h2] at hr
        exact hr
      | ok q =>
        obtain ⟨w3, out2⟩ := q
        rfl

/-- Mapping a result transformer over a broker computation does not change
which failure it is. -/
lemma is_queue_empty_err_map {α β : Type} (f : α → β) (x : Except BrokerError α) :
    is_queue_empty_err (x.map f) = is_queue_empty_err x := by
  cases x with
  | error e => cases e <;> rfl
  | ok a => rfl

/-- Splitting a poll-loop run at an arrival-sequence boundary. -/
lemma lru2_run_append (as bs : List Event) : ∀ w : List Frame,
    lru2_run w (as ++ bs) =
      match lru2_run w as with
      | Except.error err => Except.error err
      | Except.ok (w2, out) =>
        match lru2_run w2 bs with
        | Except.error err => Except.error err
        | Except.ok (w3, out2) => Except.ok (w3, out ++ out2) := by
  induction as with
  | nil =>
    intro w
    simp only [List.nil_append, lru2_run_nil]
    cases h : lru2_run w bs with
    | error err => rfl
    | ok p =>
      obtain ⟨w3, out2⟩ := p
      simp
  | cons e as ih =>
    intro w
    simp only [List.cons_append]
    rw [lru2_run_cons, lru2_run_cons]
    cases h : lru2_step w e with
    | error err => rfl
    | ok p =>
      obtain ⟨w2, out⟩ := p
      show (match lru2_run w2 (as ++ bs) with
          | Except.error err => Except.error err
          | Except.ok (w3, out2) => Except.ok (w3, out ++ out2)) =
        match (match lru2_run w2 as with
            | Except.error err => Except.error err
            | Except.ok (w3, out2) => Except.ok (w3, out ++ out2)) with
        | Except.error err => Except.error err
        | Except.ok (w3, out2) =>
          match lru2_run w3 bs with
          | Except.error err => Except.error err
          | Except.ok (w4, out3) => Except.ok (w4, out2 ++ out3)
      rw [ih w2]
      cases h2 : lru2_run w2 as with
      | error err => rfl
      | ok q =>
        obtain ⟨w3, out2⟩ := q
        show (match (match lru2_run w3 bs with
            | Except.error err => Except.error err
            | Except.ok (w4, out3) => Except.ok (w4, out2 ++ out3)) with
          | Except.error err => Except.error err
          | Except.ok (w4, out3) => Except.ok (w4, out ++ out3)) =
          match lru2_run w3 bs with
          | Except.error err => Except.error err
          | Except.ok (w4, out3) => Except.ok (w4, out ++ out2 ++ out3)
        cases h3 : lru2_run w3 bs with
        | error err => rfl
        | ok r =>
          obtain ⟨w4, out3⟩ := r
          show Except.ok (w4, out ++ (out2 ++ out3)) =
            Except.ok (w4, out ++ out2 ++ out3)
          rw [List.append_assoc]

/-- Processing a block of readiness announcements appends the announcing
workers to the queue, in arrival order, and sends nothing. -/
lemma ready_phase (ws : List Frame) : ∀ w0 : List Frame,
    lru2_run w0 (ws.map (fun a => Event.backend (readyMsg a))) =
      Except.ok (w0 ++ ws, []) := by
  induction ws with
  | nil => intro w0; simp [lru2_run_nil]
  | cons a ws ih =>
    intro w0
    simp only [List.map_cons]
    rw [lru2_run_cons]
    have hstep : lru2_step w0 (Event.backend (readyMsg a)) =
        Except.ok (zlist_append w0 a, []) := rfl
    simp only [hstep, ih (zlist_append w0 a)]
    simp [zlist_append]

/-- Processing one client request per queued worker pairs the requests
with the workers first-in-first-out: the i-th request is wrapped with the
i-th queued address and sent to the backend, and the queue drains. -/
lemma request_phase : ∀ (ws : List Frame) (rs : List Msg), ws.length = rs.length →
    lru2_run ws (rs.map Event.frontend) =
      Except.ok ([],
        List.zipWith (fun a r => Output.sendBackend (zmsg_wrap r a)) ws rs) := by
  intro ws
  induction ws with
  | nil =>
    intro rs h
    cases rs with
    | nil => rfl
    | cons r rs => exact absurd h (by simp)
  | cons a ws ih =>
    intro rs h
    cases rs with
    | nil => exact absurd h (by simp)
    | cons r rs =>
      simp only [List.map_cons]
      rw [lru2_run_cons]
      have hstep : lru2_step (a :: ws) (Event.frontend r) =
          Except.ok (ws, [Output.sendBackend (zmsg_wrap r a)]) := rfl
      have hlen : ws.length = rs.length := by simpa using h
      simp only [hstep, ih rs hlen]
      simp

/-- The poll-set condition on the frontend holds exactly when the worker
queue is non-empty. -/
lemma pollsFrontend_iff (w : List Frame) :
    lru2_pollsFrontend w = true ↔ 0 < zlist_size w := by
  cases w <;> simp [lru2_pollsFrontend, zlist_size]

/-- C1: at every observation point of the broker's event loop, the
frontend channel is polled (poll-driven variant) or has its reader
registered (reactor variant) if and only if the Ready-Queue size is
greater than 0, and the backend channel is polled, respectively
dispatched to its always-registered reader, in every state. -/
theorem C1_subscription_invariant :
    (∀ w : List Frame, lru2_pollsBackend w = true ∧
      (lru2_pollsFrontend w = true ↔ 0 < zlist_size w)) ∧
    (∀ (self : LruQueue) (m : Msg),
      lru3_step self (Event.backend m) = s_handle_backend self m) ∧
    ∀ (evs : List Event) (st : LruQueue) (out : List Output),
      lru3_run ⟨[], false⟩ evs = Except.ok (st, out) →
        (st.frontendActive = true ↔ 0 < zlist_size st.workers) := by
  refine ⟨fun w => ⟨rfl, pollsFrontend_iff w⟩, fun self m => rfl, ?_⟩
  intro evs st out h
  have hs : lru3_run ⟨[], false⟩ evs =
      (lru2_run [] evs).map (fun p => (⟨p.1, lru2_pollsFrontend p.1⟩, p.2)) :=
    run_sim evs []
  rw [hs] at h
  cases h2 : lru2_run [] evs with
  | error err =>
    rw [h2] at h
    exact Except.noConfusion h
  | ok p =>
    obtain ⟨w2, o2⟩ := p
    rw [h2] at h
    injection h with h3
    have h4 : (⟨w2, lru2_pollsFrontend w2⟩ : LruQueue) = st :=
      congrArg Prod.fst h3
    rw [← h4]
    exact pollsFrontend_iff w2

/-- Witness for C1 at the concrete arrival sequence of one readiness
announcement from worker address 5: the reached reactor state has the
frontend reader registered and one queued worker. -/
theorem C1_subscription_invariant_witness :
    ((⟨[[5]], true⟩ : LruQueue).frontendActive = true ↔
      0 < zlist_size (⟨[[5]], true⟩ : LruQueue).workers) :=
  C1_subscription_invariant.2.2 [Event.backend [[5], [1]]] ⟨[[5]], true⟩ [] rfl

/-- C2: the poll-driven broker and the reactor-driven broker produce
identical externally observable routing behaviour: over every arrival
sequence they emit the same sends in the same order, reach the same final
Ready-Queue and fail identically, the reactor's registration bit being a
function of the queue. -/
theorem C2_poll_reactor_equivalence (evs : List Event) :
    lru3_run ⟨[], false⟩ evs =
      (lru2_run [] evs).map
        (fun p => (⟨p.1, lru2_pollsFrontend p.1⟩, p.2)) :=
  run_sim evs []

/-- C3: in every reachable state of either broker, the frontend handler
pops only from a non-empty Ready-Queue, so the QueueEmpty failure of
popFront is unreachable: no run from the initial state ever ends in the
`queueEmpty` error. -/
theorem C3_queueEmpty_unreachable (evs : List Event) :
    is_queue_empty_err (lru2_run [] evs) = false ∧
    is_queue_empty_err (lru3_run ⟨[], false⟩ evs) = false := by
  refine ⟨run_no_queueEmpty evs [], ?_⟩
  have hs : lru3_run ⟨[], false⟩ evs =
      (lru2_run [] evs).map (fun p => (⟨p.1, lru2_pollsFrontend p.1⟩, p.2)) :=
    run_sim evs []
  rw [hs, is_queue_empty_err_map]
  exact run_no_queueEmpty evs []

/-- C4: for every sequence of N worker-ready events followed by N client
requests with no intervening worker activity, the i-th request is wrapped
with and sent to the i-th worker address in readiness order, in both
broker variants, and the Ready-Queue drains completely. -/
theorem C4_lru_fifo (ws : List Frame) (rs : List Msg) (h : ws.length = rs.length) :
    lru2_run [] (ws.map (fun a => Event.backend (readyMsg a)) ++ rs.map Event.frontend) =
      Except.ok ([],
        List.zipWith (fun a r => Output.sendBackend (zmsg_wrap r a)) ws rs) ∧
    lru3_run ⟨[], false⟩
        (ws.map (fun a => Event.backend (readyMsg a)) ++ rs.map Event.frontend) =
      Except.ok (⟨[], false⟩,
        List.zipWith (fun a r => Output.sendBackend (zmsg_wrap r a)) ws rs) := by
  have h2 : lru2_run []
      (ws.map (fun a => Event.backend (readyMsg a)) ++ rs.map Event.frontend) =
      Except.ok ([],
        List.zipWith (fun a r => Output.sendBackend (zmsg_wrap r a)) ws rs) := by
    rw [lru2_run_append, ready_phase ws []]
    simp only [List.nil_append]
    rw [request_phase ws rs h]
  have hs : lru3_run ⟨[], false⟩
      (ws.map (fun a => Event.backend (readyMsg a)) ++ rs.map Event.frontend) =
      (lru2_run [] (ws.map (fun a => Event.backend (readyMsg a)) ++
          rs.map Event.frontend)).map
        (fun p => (⟨p.1, lru2_pollsFrontend p.1⟩, p.2)) :=
    run_sim (ws.map (fun a => Event.backend (readyMsg a)) ++ rs.map Event.frontend) []
  refine ⟨h2, ?_⟩
  rw [hs, h2]
  rfl

/-- Witness for C4 with two workers (addresses 5 and 6) and two requests
(bodies 72 and 73): the first request goes to worker 5, the second to
worker 6, and both variants agree. -/
theorem C4_lru_fifo_witness :
    ([[5], [6]] : List Frame).length = ([[[72]], [[73]]] : List Msg).length ∧
    (lru2_run [] (([[5], [6]] : List Frame).map
          (fun a => Event.backend (readyMsg a)) ++
        ([[[72]], [[73]]] : List Msg).map Event.frontend) =
      Except.ok ([], List.zipWith (fun a r => Output.sendBackend (zmsg_wrap r a))
        [[5], [6]] [[[72]], [[73]]]) ∧
    lru3_run ⟨[], false⟩ (([[5], [6]] : List Frame).map
          (fun a => Event.backend (readyMsg a)) ++
        ([[[72]], [[73]]] : List Msg).map Event.frontend) =
      Except.ok (⟨[], false⟩,
        List.zipWith (fun a r => Output.sendBackend (zmsg_wrap r a))
          [[5], [6]] [[[72]], [[73]]])) :=
  ⟨rfl, C4_lru_fifo [[5], [6]] [[[72]], [[73]]] rfl⟩

/-- C5: unwrap is the exact inverse of wrap: for every message and every
address, unwrapping the wrapped message returns the original address and
the original remainder, byte for byte. -/
theorem C5_wrap_unwrap_inverse (m : Msg) (a : Frame) :
    zmsg_unwrap (zmsg_wrap m a) = some (a, m) := rfl

/-- Counterexample for C6: a worker reply from worker address 7 carrying
client address (1, 2) as its outermost remaining frame is NOT forwarded:
because the client address begins with the sentinel byte 0x01, the
one-byte comparison classifies the reply as a readiness announcement and
destroys it after appending the worker, so no send at all is emitted. -/
theorem C6_counterexample :
    lru2_handleBackend [] [[7], [1, 2], [79, 75]] = Except.ok ([[7]], []) ∧
    ¬ ∃ out : List Output,
        lru2_handleBackend [] [[7], [1, 2], [79, 75]] = Except.ok ([[7]], out) ∧
        Output.sendFrontend [[1, 2], [79, 75]] ∈ out := by
  refine ⟨rfl, ?_⟩
  rintro ⟨out, heq, hmem⟩
  have h0 : (Except.ok ([[7]], ([] : List Output)) :
      Except BrokerError (List Frame × List Output)) = Except.ok ([[7]], out) :=
    (rfl : lru2_handleBackend [] [[7], [1, 2], [79, 75]] =
        Except.ok ([[7]], ([] : List Output))).symm.trans heq
  injection h0 with h1
  have h2 : ([] : List Output) = out := congrArg Prod.snd h1
  rw [← h2] at hmem
  cases hmem

/-- C6 as amended: for every backend message carrying a client address as
its outermost remaining frame, PROVIDED that address is non-empty and its
first byte is not the sentinel byte 0x01, the broker forwards the
remainder to that address and to no other on the frontend, and appends
the sending worker's address to the Ready-Queue in the same step, the
append preceding the send in the code.  The non-emptiness assumption
reflects that the one-byte memcmp would read out of bounds on an empty
frame. -/
theorem C6_reply_forwarding (st : List Frame) (w c : Frame) (body : Msg)
    (_hc : c ≠ []) (h1 : c.head? ≠ some 1) :
    lru2_handleBackend st (w :: c :: body) =
      Except.ok (zlist_append st w, [Output.sendFrontend (c :: body)]) ∧
    s_handle_backend ⟨st, lru2_pollsFrontend st⟩ (w :: c :: body) =
      Except.ok (⟨zlist_append st w, true⟩, [Output.sendFrontend (c :: body)]) := by
  have hr : is_lru_ready c = false := by
    unfold is_lru_ready
    exact beq_eq_false_iff_ne.mpr h1
  have h2 : lru2_handleBackend st (w :: c :: body) =
      Except.ok (zlist_append st w, [Output.sendFrontend (c :: body)]) := by
    show (if is_lru_ready c then Except.ok (zlist_append st w, []) else
        Except.ok (zlist_append st w, [Output.sendFrontend (c :: body)])) =
      Except.ok (zlist_append st w, [Output.sendFrontend (c :: body)])
    rw [hr]
    simp
  refine ⟨h2, ?_⟩
  rw [backend_sim, h2]
  show Except.ok
      ((⟨zlist_append st w, lru2_pollsFrontend (zlist_append st w)⟩ : LruQueue),
        [Output.sendFrontend (c :: body)]) =
    Except.ok (⟨zlist_append st w, true⟩, [Output.sendFrontend (c :: body)])
  rw [pollsFrontend_append]

/-- Witness for C6 as amended: worker address 7 returns a reply for the
client address (2, 9); the reply body is forwarded to that client and the
worker is re-queued. -/
theorem C6_reply_forwarding_witness :
    (([2, 9] : Frame) ≠ [] ∧ ([2, 9] : Frame).head? ≠ some 1) ∧
    (lru2_handleBackend [[3]] [[7], [2, 9], [79]] =
      Except.ok (zlist_append [[3]] [7], [Output.sendFrontend [[2, 9], [79]]]) ∧
    s_handle_backend ⟨[[3]], lru2_pollsFrontend [[3]]⟩ [[7], [2, 9], [79]] =
      Except.ok (⟨zlist_append [[3]] [7], true⟩,
        [Output.sendFrontend [[2, 9], [79]]])) :=
  ⟨⟨by decide, by decide⟩,
    C6_reply_forwarding [[3]] [7] [2, 9] [[79]] (by decide) (by decide)⟩

/-- C7: a client request arriving while the Ready-Queue is non-empty is
forwarded to exactly one worker — wrapped with the one popped worker
address and sent once on the backend — and the queue shrinks by exactly
one element, its remaining contents untouched, in both variants. -/
theorem C7_request_consumes_one_worker (a : Frame) (rest : List Frame) (m : Msg) :
    lru2_step (a :: rest) (Event.frontend m) =
      Except.ok (rest, [Output.sendBackend (zmsg_wrap m a)]) ∧
    lru3_step ⟨a :: rest, true⟩ (Event.frontend m) =
      Except.ok (⟨rest, lru2_pollsFrontend rest⟩,
        [Output.sendBackend (zmsg_wrap m a)]) ∧
    zlist_size (a :: rest) = zlist_size rest + 1 := by
  refine ⟨rfl, ?_, rfl⟩
  cases rest with
  | nil => rfl
  | cons y ys => rfl

/-- C8: a backend message whose body is exactly the one-byte readiness
sentinel is discarded — nothing is forwarded to any client — while the
sending worker's address is still appended to the Ready-Queue, in both
variants. -/
theorem C8_ready_suppressed (st : List Frame) (w : Frame) :
    lru2_handleBackend st [w, LRU_READY] = Except.ok (zlist_append st w, []) ∧
    s_handle_backend ⟨st, lru2_pollsFrontend st⟩ [w, LRU_READY] =
      Except.ok (⟨zlist_append st w, true⟩, []) := by
  have h1 : lru2_handleBackend st [w, LRU_READY] =
      Except.ok (zlist_append st w, []) := rfl
  refine ⟨h1, ?_⟩
  rw [backend_sim, h1]
  show Except.ok
      ((⟨zlist_append st w, lru2_pollsFrontend (zlist_append st w)⟩ : LruQueue),
        ([] : List Output)) =
    Except.ok (⟨zlist_append st w, true⟩, [])
  rw [pollsFrontend_append]

/-- Counterexample for C9: a backend message with no leading address frame
is not dropped-with-queue-unchanged: its processing fails (the C code
appends the null unwrap result to the queue and then dies on the
assertion inside zframe_data; the model reports `malformedEnvelope`), so
the outcome is not the claimed continue-with-unchanged-state.  A frontend
message is never checked for an address frame at all: when a worker is
available even a frame-less frontend message is wrapped and dispatched,
consuming a worker. -/
theorem C9_counterexample :
    lru2_handleBackend [] ([] : Msg) = Except.error BrokerError.malformedEnvelope ∧
    s_handle_backend ⟨[], false⟩ ([] : Msg) =
      Except.error BrokerError.malformedEnvelope ∧
    lru2_handleBackend [] ([] : Msg) ≠ Except.ok ([], []) ∧
    lru2_handleFrontend [[5]] ([] : Msg) =
      Except.ok ([], [Output.sendBackend [[5]]]) := by
  refine ⟨rfl, rfl, ?_, rfl⟩
  intro h
  rw [show lru2_handleBackend [] ([] : Msg) =
    Except.error BrokerError.malformedEnvelope from rfl] at h
  exact Except.noConfusion h

/-- C9 as amended: the brokers implement no drop-and-continue policy for
envelopes missing an address frame.  A backend arrival with no frames
aborts the run of either variant with the `malformedEnvelope` failure
from any state, rather than being discarded with the Ready-Queue left
unchanged; frontend messages are never unwrapped, so no malformed
envelope condition exists on that channel. -/
theorem C9_no_drop_policy (st : List Frame) (act : Bool) :
    lru2_run st [Event.backend []] = Except.error BrokerError.malformedEnvelope ∧
    lru3_run ⟨st, act⟩ [Event.backend []] =
      Except.error BrokerError.malformedEnvelope :=
  ⟨rfl, rfl⟩

/-- C10: the sentinel test compares only the first byte of the first
remaining frame: every backend message whose first remaining frame begins
with byte 0x01 is classified as a readiness signal and discarded without
being forwarded — even when that frame is longer than one byte or further
frames follow — while the worker address is still appended. -/
theorem C10_first_byte_classification (st : List Frame) (w f : Frame) (rest : Msg)
    (h : f.head? = some 1) :
    lru2_handleBackend st (w :: f :: rest) = Except.ok (zlist_append st w, []) ∧
    s_handle_backend ⟨st, lru2_pollsFrontend st⟩ (w :: f :: rest) =
      Except.ok (⟨zlist_append st w, true⟩, []) := by
  have hr : is_lru_ready f = true := by
    unfold is_lru_ready
    rw [h]
    rfl
  have h2 : lru2_handleBackend st (w :: f :: rest) =
      Except.ok (zlist_append st w, []) := by
    show (if is_lru_ready f then Except.ok (zlist_append st w, []) else
        Except.ok (zlist_append st w, [Output.sendFrontend (f :: rest)])) =
      Except.ok (zlist_append st w, [])
    rw [hr]
    simp
  refine ⟨h2, ?_⟩
  rw [backend_sim, h2]
  show Except.ok
      ((⟨zlist_append st w, lru2_pollsFrontend (zlist_append st w)⟩ : LruQueue),
        ([] : List Output)) =
    Except.ok (⟨zlist_append st w, true⟩, [])
  rw [pollsFrontend_append]

/-- Witness for C10: a three-byte first frame starting with 0x01 followed
by one further frame is still discarded as a readiness signal. -/
theorem C10_first_byte_classification_witness :
    ([1, 42, 43] : Frame).head? = some 1 ∧
    (lru2_handleBackend [] [[9], [1, 42, 43], [7, 8]] =
      Except.ok (zlist_append [] [9], []) ∧
    s_handle_backend ⟨[], lru2_pollsFrontend []⟩ [[9], [1, 42, 43], [7, 8]] =
      Except.ok (⟨zlist_append [] [9], true⟩, [])) :=
  ⟨rfl, C10_first_byte_classification [] [9] [1, 42, 43] [[7, 8]] rfl⟩

end LRUQueue
